import Mathlib

/-!
Shallow embedding of the weekly training-status derivation logic of the
fitness-coaching app: the Week Window Builder (getWeekDates) and the two
Weekly Status Deriver implementations (loadWeeklySchedule in
app/training-calendar.tsx and loadWeeklyWorkouts in the coaching dashboard
screen), plus the aggregation calculateWeeklyStats.

Modelling conventions:
- a calendar date is an integer count of days since 1970-01-01 (a Thursday),
  so "add one calendar day" is "+ 1"; this models the JavaScript
  Date.setDate arithmetic, which normalises month and year overflow;
- a clock time is a number of seconds within the day (the source's string
  "00:00:00" is 0);
- a timestamp ("now", new Date()) is a number of seconds since the epoch,
  and building a Date from a date string plus a time string is
  date * 86400 + time;
- database rows are records with Option fields for nullable columns.
-/

namespace Art

/-- Stored status tag of a persisted training session row. -/
inductive SessionStatus
  | scheduled
  | completed
  | no_show
  | cancelled
deriving DecidableEq, Repr

/-- Display status of a derived day entry (the WeeklyWorkout.status union type
in app/training-calendar.tsx). -/
inductive DayStatus
  | completed
  | missed
  | scheduled
  | rest
  | cancelled
deriving DecidableEq, Repr, Inhabited

/-- A workout template reference: identifier plus display name. -/
structure TemplateRef where
  id : String
  name : String
deriving DecidableEq, Repr

/-- Training-session row as consumed by app/training-calendar.tsx:
identifier, scheduled date, optional scheduled time, stored status, optional
embedded template, optional duration in minutes, optional notes. -/
structure TrainingSession where
  id : String
  scheduled_date : Int
  scheduled_time : Option Nat
  status : SessionStatus
  template : Option TemplateRef
  duration_minutes : Option Nat
  notes : Option String
deriving DecidableEq, Repr

/-- Derived day entry of the client training calendar (interface WeeklyWorkout
in app/training-calendar.tsx). -/
structure WeeklyWorkout where
  dayName : String
  dayNumber : Int
  template : Option TemplateRef
  completed : Bool
  missed : Bool
  sessionId : Option String
  scheduledTime : Option Nat
  status : DayStatus
  duration_minutes : Option Nat
  notes : Option String
deriving DecidableEq, Repr

instance : Inhabited WeeklyWorkout :=
  ⟨{ dayName := "", dayNumber := 0, template := none, completed := false,
     missed := false, sessionId := none, scheduledTime := none,
     status := DayStatus.rest, duration_minutes := none, notes := none }⟩

/-- Weekly aggregate statistics (interface WeeklyStats). The completion rate
is kept as an exact rational, the unrounded floating-point percentage of the
source. -/
structure WeeklyStats where
  totalWorkouts : Nat
  completedWorkouts : Nat
  totalDuration : Nat
  completionRate : ℚ
deriving DecidableEq, Repr

/-- Weekday of a date given as days since 1970-01-01 (a Thursday), numbered as
JavaScript Date.getDay: 0 = Sunday .. 6 = Saturday. -/
def weekday (d : Int) : Int :=
  (d + 4) % 7

/-- The "diff" computed by getWeekDates: offset from the reference date to the
Monday of its week (−6 when the weekday is Sunday, 1 − weekday otherwise). -/
def weekDiff (d : Int) : Int :=
  if weekday d = 0 then -6 else 1 - weekday d

/-- getWeekDates from app/training-calendar.tsx (the same Monday computation
is inlined in loadWeeklyWorkouts of the coaching dashboard screen): the 7
consecutive dates Monday..Sunday of the week containing startDate. -/
def getWeekDates (startDate : Int) : List Int :=
  let monday := startDate + weekDiff startDate
  (List.range 7).map (fun i => monday + (i : Int))

/-- Civil (year, month, day) of a day count since 1970-01-01, proleptic
Gregorian; models the calendar normalisation JavaScript Date performs. -/
def civilFromDays (z0 : Int) : Int × Int × Int :=
  let z := z0 + 719468
  let era : Int := (if 0 ≤ z then z else z - 146096) / 146097
  let doe : Int := z - era * 146097
  let yoe : Int := (doe - doe / 1460 + doe / 36524 - doe / 146096) / 365
  let doy : Int := doe - (365 * yoe + yoe / 4 - yoe / 100)
  let mp : Int := (5 * doy + 2) / 153
  let d : Int := doy - (153 * mp + 2) / 5 + 1
  let m : Int := mp + (if mp < 10 then 3 else -9)
  ((yoe + era * 400) + (if m ≤ 2 then 1 else 0), m, d)

/-- Day-of-month of a date (JavaScript Date.getDate), used for the dayNumber
field of a day entry. -/
def dayOfMonth (z : Int) : Int :=
  (civilFromDays z).2.2

/-- Timestamp of a date at a given time of day, as seconds since the epoch;
models new Date(dateString + "T" + timeString). -/
def toDateTime (date : Int) (time : Nat) : Int :=
  date * 86400 + (time : Int)

/-- The dayNames array of loadWeeklySchedule / loadWeeklyWorkouts. -/
def dayNames : List String :=
  ["M", "T", "W", "T", "F", "S", "S"]

/-- The status-resolution block of loadWeeklySchedule in
app/training-calendar.tsx: the day status starts as the session's stored
status; a scheduled session whose date-plus-time (time defaulting to 00:00:00)
is strictly before now becomes missed, a no_show becomes missed; completed and
cancelled pass through unchanged. -/
def resolveStatus (s : TrainingSession) (date now : Int) : DayStatus :=
  let sessionDateTime := toDateTime date (s.scheduled_time.getD 0)
  match s.status with
  | SessionStatus.completed => DayStatus.completed
  | SessionStatus.scheduled =>
      if sessionDateTime < now then DayStatus.missed else DayStatus.scheduled
  | SessionStatus.no_show => DayStatus.missed
  | SessionStatus.cancelled => DayStatus.cancelled

/-- One iteration of the weekDates.forEach body of loadWeeklySchedule in
app/training-calendar.tsx: match the first session whose scheduled date equals
this date, copy its fields (or defaults when absent), then resolve the display
status via resolveStatus; no session means rest. -/
def deriveDay (date : Int) (index : Nat) (sessions : List TrainingSession)
    (now : Int) : WeeklyWorkout :=
  let session := sessions.find? (fun s => s.scheduled_date == date)
  let base : WeeklyWorkout :=
    { dayName := dayNames.getD index ""
      dayNumber := dayOfMonth date
      template := session.bind (fun s => s.template)
      completed := false
      missed := false
      sessionId := session.map (fun s => s.id)
      scheduledTime := session.bind (fun s => s.scheduled_time)
      status := DayStatus.rest
      duration_minutes := session.bind (fun s => s.duration_minutes)
      notes := session.bind (fun s => s.notes) }
  match session with
  | none => base
  | some s =>
      { base with
          status := resolveStatus s date now
          completed := s.status == SessionStatus.completed }

/-- The pure core of loadWeeklySchedule: derive one WeeklyWorkout per date of
the given week, in order (weekDates.forEach with its index). -/
def deriveWeek (weekDates : List Int) (sessions : List TrainingSession)
    (now : Int) : List WeeklyWorkout :=
  weekDates.enum.map (fun p => deriveDay p.2 p.1 sessions now)

/-- loadWeeklySchedule of app/training-calendar.tsx with I/O abstracted away:
the week is built from the current week start and each day is derived against
the fetched sessions. -/
def loadWeeklySchedule (currentWeekStart : Int) (sessions : List TrainingSession)
    (now : Int) : List WeeklyWorkout :=
  deriveWeek (getWeekDates currentWeekStart) sessions now

/-- The predicate of the totalWorkouts filter in calculateWeeklyStats:
template present or status not rest. -/
def countsTowardTotal (w : WeeklyWorkout) : Bool :=
  w.template != none || w.status != DayStatus.rest

/-- calculateWeeklyStats of app/training-calendar.tsx. -/
def calculateWeeklyStats (workouts : List WeeklyWorkout) : WeeklyStats :=
  let totalWorkouts := (workouts.filter countsTowardTotal).length
  let completedWorkouts :=
    (workouts.filter (fun w => w.status == DayStatus.completed)).length
  let totalDuration :=
    ((workouts.filter (fun w => w.status == DayStatus.completed)).foldl
      (fun sum w => sum + w.duration_minutes.getD 0) 0)
  let completionRate : ℚ :=
    if totalWorkouts > 0 then
      ((completedWorkouts : ℚ) / (totalWorkouts : ℚ)) * 100
    else 0
  { totalWorkouts := totalWorkouts
    completedWorkouts := completedWorkouts
    totalDuration := totalDuration
    completionRate := completionRate }

/-- A workout template row of the coaching dashboard screen's template list. -/
structure WorkoutTemplate where
  id : String
  name : String
deriving DecidableEq, Repr

/-- Training-session row as consumed by loadWeeklyWorkouts in the coaching
dashboard screen: scheduled date is nullable there (a null date never matches
a day), the template is referenced by id, and session_type / type are optional
label columns (a JavaScript falsy empty string also falls through). -/
structure DashboardSession where
  id : String
  scheduled_date : Option Int
  template_id : Option String
  session_type : Option String
  type : Option String
  scheduled_time : Option Nat
  status : SessionStatus
deriving DecidableEq, Repr

/-- Derived day entry of the coaching dashboard (its WeeklyWorkout shape has
no status field, no duration and no notes: only the two boolean flags). -/
structure DashboardWorkout where
  dayName : String
  dayNumber : Int
  template : Option TemplateRef
  completed : Bool
  missed : Bool
  sessionId : Option String
  scheduledTime : Option Nat
deriving DecidableEq, Repr

/-- JavaScript "a || b" on an optional string column: null, undefined and the
empty string all fall through to b. -/
def jsOrStr : Option String → String → String
  | some s, b => if s = "" then b else s
  | none, b => b

/-- Template resolution of loadWeeklyWorkouts: a session with a template_id is
looked up in the loaded template list (display name "Workout" when the lookup
fails); a session without one gets a fallback built from the session's own
identifier and its session-type label, or the literal "Custom Session". -/
def resolveTemplateFor (s : DashboardSession)
    (workoutTemplates : List WorkoutTemplate) : TemplateRef :=
  match s.template_id with
  | some tid =>
      match workoutTemplates.find? (fun t => t.id == tid) with
      | some templateData => { id := templateData.id, name := templateData.name }
      | none => { id := tid, name := "Workout" }
  | none => { id := s.id, name := jsOrStr s.session_type (jsOrStr s.type "Custom Session") }

/-- One iteration of the weekDates.map body of loadWeeklyWorkouts in the
coaching dashboard screen: match the first session whose (normalised)
scheduled date equals this date, resolve a template, and set the completed and
missed flags: completed for a completed status; missed for no_show or
cancelled, or for a scheduled status whose date (at midnight) is already past. -/
def deriveDashDay (date : Int) (index : Nat) (sessions : List DashboardSession)
    (workoutTemplates : List WorkoutTemplate) (now : Int) : DashboardWorkout :=
  let session := sessions.find? (fun s => s.scheduled_date == some date)
  match session with
  | none =>
      { dayName := dayNames.getD index ""
        dayNumber := dayOfMonth date
        template := none
        completed := false
        missed := false
        sessionId := none
        scheduledTime := none }
  | some s =>
      let completed := s.status == SessionStatus.completed
      let missed :=
        if s.status == SessionStatus.completed then false
        else if s.status == SessionStatus.no_show
            || s.status == SessionStatus.cancelled then true
        else decide (toDateTime date 0 < now) && (s.status == SessionStatus.scheduled)
      { dayName := dayNames.getD index ""
        dayNumber := dayOfMonth date
        template := some (resolveTemplateFor s workoutTemplates)
        completed := completed
        missed := missed
        sessionId := some s.id
        scheduledTime := s.scheduled_time }

/-- The pure core of loadWeeklyWorkouts: build the Monday-start week of the
current day and derive one DashboardWorkout per date, in order; today and now
are the same wall-clock reading (today its date part, now the timestamp). -/
def loadWeeklyWorkouts (today : Int) (sessions : List DashboardSession)
    (workoutTemplates : List WorkoutTemplate) (now : Int) : List DashboardWorkout :=
  (getWeekDates today).enum.map
    (fun p => deriveDashDay p.2 p.1 sessions workoutTemplates now)

/-! Helper lemmas shared by the claim theorems. -/

/-- getWeekDates written out as an explicit seven-element list. -/
theorem getWeekDates_eq (ref : Int) :
    getWeekDates ref = [ref + weekDiff ref, ref + weekDiff ref + 1, ref + weekDiff ref + 2,
      ref + weekDiff ref + 3, ref + weekDiff ref + 4, ref + weekDiff ref + 5,
      ref + weekDiff ref + 6] := by
  simp [getWeekDates, List.range_succ]

/-- The date reached by the weekDiff offset always falls on a Monday. -/
theorem weekday_monday (ref : Int) : weekday (ref + weekDiff ref) = 1 := by
  simp only [weekday, weekDiff]
  split <;> omega

/-- deriveWeek produces one entry per input date. -/
theorem deriveWeek_length (week : List Int) (ss : List TrainingSession) (now : Int) :
    (deriveWeek week ss now).length = week.length := by
  simp [deriveWeek, List.enum_length]

/-- The i-th entry of deriveWeek is the derivation of the i-th date with index i. -/
theorem deriveWeek_getD (week : List Int) (ss : List TrainingSession) (now : Int)
    (i : Nat) (hi : i < week.length) :
    (deriveWeek week ss now).getD i default = deriveDay (week.getD i 0) i ss now := by
  rw [deriveWeek, List.getD_eq_getElem?_getD, List.getElem?_map]
  rw [List.getElem?_eq_getElem (by simpa [List.enum_length] using hi)]
  rw [List.getElem_enum]
  rw [List.getD_eq_getElem?_getD, List.getElem?_eq_getElem hi]
  rfl

/-- The session identifier a derived day entry carries is exactly the
identifier of the first session found for its date. -/
theorem deriveDay_sessionId (date : Int) (idx : Nat) (ss : List TrainingSession)
    (now : Int) :
    (deriveDay date idx ss now).sessionId
      = (ss.find? (fun s => s.scheduled_date == date)).map (fun s => s.id) := by
  rcases h : ss.find? (fun s => s.scheduled_date == date) with _ | s <;> simp [deriveDay, h]

/-- A matched cancelled session resolves to the cancelled day status. -/
theorem deriveDay_status_cancelled (date : Int) (idx : Nat)
    (ss : List TrainingSession) (now : Int) (s : TrainingSession)
    (hfind : ss.find? (fun x => x.scheduled_date == date) = some s)
    (hst : s.status = SessionStatus.cancelled) :
    (deriveDay date idx ss now).status = DayStatus.cancelled := by
  simp [deriveDay, hfind, resolveStatus, hst]

/-- Any entry whose status is not rest satisfies the totalWorkouts predicate. -/
theorem countsTowardTotal_of_ne_rest (w : WeeklyWorkout)
    (h : w.status ≠ DayStatus.rest) : countsTowardTotal w = true := by
  simp [countsTowardTotal]
  right
  simpa using h

/-- The duration foldl of calculateWeeklyStats is the sum of the mapped
durations. -/
theorem foldl_add_durations (l : List WeeklyWorkout) (acc : Nat) :
    l.foldl (fun sum w => sum + w.duration_minutes.getD 0) acc
      = acc + (l.map (fun w => w.duration_minutes.getD 0)).sum := by
  induction l generalizing acc with
  | nil => simp
  | cons a t ih => simp [ih, List.sum_cons]; omega

/-! Claim theorems. -/

/-- C1: for every matched session stored as no_show or cancelled, the client
calendar's derived day status is missed for no_show and cancelled for
cancelled, and the two resulting day statuses are distinct values, never
conflated. -/
theorem c1_no_show_missed_cancelled_kept_distinct (date : Int) (idx : Nat)
    (sessions : List TrainingSession) (now : Int) (s : TrainingSession)
    (hfind : sessions.find? (fun x => x.scheduled_date == date) = some s) :
    ((s.status = SessionStatus.no_show →
        (deriveDay date idx sessions now).status = DayStatus.missed) ∧
      (s.status = SessionStatus.cancelled →
        (deriveDay date idx sessions now).status = DayStatus.cancelled)) ∧
    DayStatus.missed ≠ DayStatus.cancelled := by
  refine ⟨⟨fun h => ?_, fun h => ?_⟩, by decide⟩
  · simp [deriveDay, hfind, resolveStatus, h]
  · simp [deriveDay, hfind, resolveStatus, h]

/-- C1 witness: a concrete no_show session on its day yields the missed
status. -/
theorem c1_no_show_missed_cancelled_kept_distinct_witness :
    (deriveDay 0 0 [⟨"s1", 0, none, SessionStatus.no_show, none, none, none⟩] 0).status
      = DayStatus.missed :=
  (c1_no_show_missed_cancelled_kept_distinct 0 0
    [⟨"s1", 0, none, SessionStatus.no_show, none, none, none⟩] 0
    ⟨"s1", 0, none, SessionStatus.no_show, none, none, none⟩ rfl).1.1 rfl

/-- C2: for every matched session stored as scheduled, the derived day status
is missed exactly when the scheduled date combined with the scheduled time
(defaulting to 00:00:00 when absent) is strictly before now, and stays
scheduled otherwise. -/
theorem c2_scheduled_past_is_missed (date : Int) (idx : Nat)
    (sessions : List TrainingSession) (now : Int) (s : TrainingSession)
    (hfind : sessions.find? (fun x => x.scheduled_date == date) = some s)
    (hst : s.status = SessionStatus.scheduled) :
    (deriveDay date idx sessions now).status =
      (if toDateTime date (s.scheduled_time.getD 0) < now then DayStatus.missed
       else DayStatus.scheduled) := by
  simp [deriveDay, hfind, resolveStatus, hst]

/-- C2 witness: a session scheduled yesterday at 08:00:00 (second 28800)
relative to a midnight now is missed. -/
theorem c2_scheduled_past_is_missed_witness :
    (deriveDay (-1) 0 [⟨"s1", -1, some 28800, SessionStatus.scheduled, none, none, none⟩]
      0).status = DayStatus.missed := by
  rw [c2_scheduled_past_is_missed (-1) 0
    [⟨"s1", -1, some 28800, SessionStatus.scheduled, none, none, none⟩] 0
    ⟨"s1", -1, some 28800, SessionStatus.scheduled, none, none, none⟩ rfl rfl]
  decide

/-- C3: over a 7-entry week, calculateWeeklyStats matches the reference
definitions: totalWorkouts counts entries with a template or a non-rest
status, completedWorkouts counts completed entries, totalDuration sums the
durations (0 when absent) of completed entries, and completionRate is exactly
0 when totalWorkouts is 0 and 100 * completed / total otherwise, as an exact
rational (no NaN, no division error). -/
theorem c3_weekly_stats_reference (workouts : List WeeklyWorkout)
    (h : workouts.length = 7) :
    (calculateWeeklyStats workouts).totalWorkouts =
      workouts.countP (fun w => decide (w.template ≠ none ∨ w.status ≠ DayStatus.rest)) ∧
    (calculateWeeklyStats workouts).completedWorkouts =
      workouts.countP (fun w => decide (w.status = DayStatus.completed)) ∧
    (calculateWeeklyStats workouts).totalDuration =
      ((workouts.filter (fun w => decide (w.status = DayStatus.completed))).map
        (fun w => w.duration_minutes.getD 0)).sum ∧
    (calculateWeeklyStats workouts).completionRate =
      (if (calculateWeeklyStats workouts).totalWorkouts = 0 then 0
       else 100 * ((calculateWeeklyStats workouts).completedWorkouts : ℚ)
         / ((calculateWeeklyStats workouts).totalWorkouts : ℚ)) := by
  have hcount : ∀ w : WeeklyWorkout,
      countsTowardTotal w = decide (w.template ≠ none ∨ w.status ≠ DayStatus.rest) := by
    intro w
    obtain ⟨_, _, template, _, _, _, _, status, _, _⟩ := w
    cases template <;> cases status <;> rfl
  have hcomp : ∀ w : WeeklyWorkout,
      (w.status == DayStatus.completed) = decide (w.status = DayStatus.completed) := by
    intro w
    obtain ⟨_, _, _, _, _, _, _, status, _, _⟩ := w
    cases status <;> rfl
  refine ⟨?_, ?_, ?_, ?_⟩
  · show (workouts.filter countsTowardTotal).length = _
    rw [List.countP_eq_length_filter]
    exact congrArg List.length (List.filter_congr (fun w _ => hcount w))
  · show (workouts.filter (fun w => w.status == DayStatus.completed)).length = _
    rw [List.countP_eq_length_filter]
    exact congrArg List.length (List.filter_congr (fun w _ => hcomp w))
  · show (workouts.filter (fun w => w.status == DayStatus.completed)).foldl
        (fun sum w => sum + w.duration_minutes.getD 0) 0 = _
    rw [foldl_add_durations, Nat.zero_add]
    exact congrArg _ (congrArg _ (List.filter_congr (fun w _ => hcomp w)))
  · have hT : (calculateWeeklyStats workouts).totalWorkouts
        = (workouts.filter countsTowardTotal).length := rfl
    have hC : (calculateWeeklyStats workouts).completedWorkouts
        = (workouts.filter (fun w => w.status == DayStatus.completed)).length := rfl
    have hR : (calculateWeeklyStats workouts).completionRate
        = (if (workouts.filter countsTowardTotal).length > 0 then
            (((workouts.filter (fun w => w.status == DayStatus.completed)).length : ℚ)
              / ((workouts.filter countsTowardTotal).length : ℚ)) * 100
          else 0) := rfl
    rw [hR, hT, hC]
    rcases Nat.eq_zero_or_pos (workouts.filter countsTowardTotal).length with h0 | h0
    · rw [h0]
      norm_num
    · rw [if_pos h0, if_neg (Nat.pos_iff_ne_zero.mp h0)]
      ring

/-- C3 witness: the completion-rate equation instantiated on a concrete week
of 7 default (rest) entries. -/
theorem c3_weekly_stats_reference_witness :
    (calculateWeeklyStats (List.replicate 7 (default : WeeklyWorkout))).completionRate =
      (if (calculateWeeklyStats (List.replicate 7 (default : WeeklyWorkout))).totalWorkouts
          = 0 then 0
       else 100 * ((calculateWeeklyStats
          (List.replicate 7 (default : WeeklyWorkout))).completedWorkouts : ℚ)
         / ((calculateWeeklyStats
          (List.replicate 7 (default : WeeklyWorkout))).totalWorkouts : ℚ)) :=
  (c3_weekly_stats_reference (List.replicate 7 (default : WeeklyWorkout)) rfl).2.2.2

/-- C4 counterexample: a week whose first day carries a cancelled session with
no template. The derived day status is cancelled, yet totalWorkouts is 1, not
0: the cancelled day DOES count toward totalWorkouts because its status is not
rest, contradicting the claim that it does not count. -/
theorem c4_cancelled_counts_counterexample :
    ((loadWeeklySchedule 0
        [⟨"s1", -3, none, SessionStatus.cancelled, none, none, none⟩] 0).getD 0
          default).status = DayStatus.cancelled ∧
    (calculateWeeklyStats (loadWeeklySchedule 0
        [⟨"s1", -3, none, SessionStatus.cancelled, none, none, none⟩] 0)).totalWorkouts
      = 1 := by
  decide

/-- C4 amended: for every week containing a matched session stored as
cancelled, the resulting day entry has status cancelled and that day DOES
count toward totalWorkouts (its status is not rest, so the
template-present-or-non-rest predicate holds and totalWorkouts is at least
1). -/
theorem c4_cancelled_day_counts_toward_total (week : List Int)
    (sessions : List TrainingSession) (now : Int)
    (i : Nat) (hi : i < week.length) (s : TrainingSession)
    (hfind : sessions.find? (fun x => x.scheduled_date == week.getD i 0) = some s)
    (hst : s.status = SessionStatus.cancelled) :
    ((deriveWeek week sessions now).getD i default).status = DayStatus.cancelled ∧
    countsTowardTotal ((deriveWeek week sessions now).getD i default) = true ∧
    1 ≤ (calculateWeeklyStats (deriveWeek week sessions now)).totalWorkouts := by
  have hd := deriveWeek_getD week sessions now i hi
  have hstatus : ((deriveWeek week sessions now).getD i default).status
      = DayStatus.cancelled := by
    rw [hd]
    exact deriveDay_status_cancelled _ _ _ _ _ hfind hst
  have hcounts : countsTowardTotal ((deriveWeek week sessions now).getD i default)
      = true :=
    countsTowardTotal_of_ne_rest _ (by rw [hstatus]; decide)
  refine ⟨hstatus, hcounts, ?_⟩
  have hlen : i < (deriveWeek week sessions now).length := by
    rw [deriveWeek_length]
    exact hi
  have hgetD : (deriveWeek week sessions now).getD i default
      = (deriveWeek week sessions now)[i] := by
    rw [List.getD_eq_getElem?_getD, List.getElem?_eq_getElem hlen]
    rfl
  have hne : (deriveWeek week sessions now).filter countsTowardTotal ≠ [] := by
    intro hnil
    have hnc := List.filter_eq_nil_iff.mp hnil _ (List.getElem_mem hlen)
    rw [← hgetD, hcounts] at hnc
    exact hnc rfl
  show 1 ≤ ((deriveWeek week sessions now).filter countsTowardTotal).length
  exact Nat.one_le_iff_ne_zero.mpr
    (fun h0 => hne (List.eq_nil_of_length_eq_zero h0))

/-- C4 witness: the amended claim applied to the concrete cancelled session of
the counterexample week. -/
theorem c4_cancelled_day_counts_toward_total_witness :
    1 ≤ (calculateWeeklyStats (deriveWeek (getWeekDates 0)
      [⟨"s1", -3, none, SessionStatus.cancelled, none, none, none⟩] 0)).totalWorkouts :=
  (c4_cancelled_day_counts_toward_total (getWeekDates 0)
    [⟨"s1", -3, none, SessionStatus.cancelled, none, none, none⟩] 0 0 (by decide)
    ⟨"s1", -3, none, SessionStatus.cancelled, none, none, none⟩ (by decide) rfl).2.2

/-- C5: for every reference date, getWeekDates returns exactly 7 dates; the
first is the reference plus the specified offset (−6 on Sunday, 1 − weekday
otherwise), falls on a Monday, and its week window contains the reference;
each following date is exactly one calendar day after the previous one
(month and year boundaries are inherent to the day-count calendar
arithmetic). -/
theorem c5_week_window_monday_start (ref : Int) :
    (getWeekDates ref).length = 7 ∧
    (getWeekDates ref).getD 0 0
      = ref + (if weekday ref = 0 then -6 else 1 - weekday ref) ∧
    weekday ((getWeekDates ref).getD 0 0) = 1 ∧
    ((getWeekDates ref).getD 0 0 ≤ ref ∧ ref ≤ (getWeekDates ref).getD 0 0 + 6) ∧
    (∀ i : Fin 6, (getWeekDates ref).getD ((i : Nat) + 1) 0
      = (getWeekDates ref).getD (i : Nat) 0 + 1) := by
  rw [getWeekDates_eq]
  refine ⟨rfl, ?_, ?_, ?_, ?_⟩
  · show ref + weekDiff ref = _
    rw [weekDiff]
  · show weekday (ref + weekDiff ref) = 1
    exact weekday_monday ref
  · show ref + weekDiff ref ≤ ref ∧ ref ≤ ref + weekDiff ref + 6
    simp only [weekDiff, weekday]
    constructor <;> split <;> omega
  · intro i
    fin_cases i <;> simp [List.getD] <;> ring

/-- C6: deriving any 7-date week against an empty session set yields only rest
entries with no template, session identifier, scheduled time, duration or
notes, and weekly statistics with totalWorkouts 0 and completionRate 0. -/
theorem c6_empty_sessions_all_rest (week : List Int) (now : Int)
    (hw : week.length = 7) :
    (∀ w ∈ deriveWeek week [] now, w.status = DayStatus.rest ∧ w.template = none ∧
      w.sessionId = none ∧ w.scheduledTime = none ∧ w.duration_minutes = none ∧
      w.notes = none) ∧
    (calculateWeeklyStats (deriveWeek week [] now)).totalWorkouts = 0 ∧
    (calculateWeeklyStats (deriveWeek week [] now)).completionRate = 0 := by
  have hmem : ∀ w ∈ deriveWeek week [] now, w.status = DayStatus.rest ∧ w.template = none ∧
      w.sessionId = none ∧ w.scheduledTime = none ∧ w.duration_minutes = none ∧
      w.notes = none := by
    intro w hw2
    rw [deriveWeek] at hw2
    obtain ⟨p, hp, rfl⟩ := List.mem_map.mp hw2
    simp [deriveDay]
  have hfilter : (deriveWeek week [] now).filter countsTowardTotal = [] := by
    rw [List.filter_eq_nil_iff]
    intro w hw2
    obtain ⟨hst, htm, _⟩ := hmem w hw2
    simp [countsTowardTotal, hst, htm]
  have hT : (calculateWeeklyStats (deriveWeek week [] now)).totalWorkouts = 0 := by
    show ((deriveWeek week [] now).filter countsTowardTotal).length = 0
    rw [hfilter]
    rfl
  refine ⟨hmem, hT, ?_⟩
  have hR : (calculateWeeklyStats (deriveWeek week [] now)).completionRate
      = (if ((deriveWeek week [] now).filter countsTowardTotal).length > 0 then
          ((((deriveWeek week [] now).filter
              (fun w => w.status == DayStatus.completed)).length : ℚ)
            / (((deriveWeek week [] now).filter countsTowardTotal).length : ℚ)) * 100
        else 0) := rfl
  rw [hR, hfilter]
  norm_num

/-- C6 witness: the empty-session week built from reference date 0 has zero
totalWorkouts and zero completionRate. -/
theorem c6_empty_sessions_all_rest_witness :
    (calculateWeeklyStats (deriveWeek (getWeekDates 0) [] 0)).totalWorkouts = 0 ∧
    (calculateWeeklyStats (deriveWeek (getWeekDates 0) [] 0)).completionRate = 0 :=
  ⟨(c6_empty_sessions_all_rest (getWeekDates 0) 0 rfl).2.1,
    (c6_empty_sessions_all_rest (getWeekDates 0) 0 rfl).2.2⟩

/-- C7 counterexample: in the client calendar derivation a matched session
without a template yields an entry whose sessionId is set but whose template
is none; no fallback template reference is synthesized there, contradicting
the claim that every matched day entry carries a template reference. -/
theorem c7_no_fallback_template_counterexample :
    ((loadWeeklySchedule 0
        [⟨"s1", -3, none, SessionStatus.scheduled, none, none, none⟩] 1).getD 0
          default).sessionId = some "s1" ∧
    ((loadWeeklySchedule 0
        [⟨"s1", -3, none, SessionStatus.scheduled, none, none, none⟩] 1).getD 0
          default).template = none := by
  decide

/-- C7 amended: the client calendar derivation copies the session's template
as-is (none stays none: no fallback), along with identifier, scheduled time,
duration and notes; the coaching dashboard derivation always carries a
template — the resolved one for a template id (display name "Workout" when
the lookup fails) or a fallback built from the session's identifier and a
session-type label or the literal "Custom Session" — and copies identifier
and scheduled time (its entry shape has no duration or notes fields). -/
theorem c7_template_and_copied_fields (date : Int) (idx : Nat)
    (sessions : List TrainingSession) (now : Int) (s : TrainingSession)
    (hfind : sessions.find? (fun x => x.scheduled_date == date) = some s)
    (dsessions : List DashboardSession) (tmpls : List WorkoutTemplate)
    (d : DashboardSession)
    (hdfind : dsessions.find? (fun x => x.scheduled_date == some date) = some d) :
    ((deriveDay date idx sessions now).template = s.template ∧
      (deriveDay date idx sessions now).sessionId = some s.id ∧
      (deriveDay date idx sessions now).scheduledTime = s.scheduled_time ∧
      (deriveDay date idx sessions now).duration_minutes = s.duration_minutes ∧
      (deriveDay date idx sessions now).notes = s.notes) ∧
    ((deriveDashDay date idx dsessions tmpls now).template
        = some (resolveTemplateFor d tmpls) ∧
      (deriveDashDay date idx dsessions tmpls now).sessionId = some d.id ∧
      (deriveDashDay date idx dsessions tmpls now).scheduledTime = d.scheduled_time) := by
  constructor
  · refine ⟨?_, ?_, ?_, ?_, ?_⟩ <;> simp [deriveDay, hfind]
  · refine ⟨?_, ?_, ?_⟩ <;> simp [deriveDashDay, hdfind]

/-- C7 witness: one concrete matched session per screen; the dashboard entry
gets the synthesized fallback template, the calendar entry copies its
identifier. -/
theorem c7_template_and_copied_fields_witness :
    (deriveDay 0 0 [⟨"s1", 0, none, SessionStatus.completed, none, none, none⟩]
      0).sessionId = some "s1" ∧
    (deriveDashDay 0 0 [⟨"d1", some 0, none, none, none, none,
        SessionStatus.completed⟩] [] 0).template
      = some (resolveTemplateFor
          ⟨"d1", some 0, none, none, none, none, SessionStatus.completed⟩ []) :=
  ⟨(c7_template_and_copied_fields 0 0
      [⟨"s1", 0, none, SessionStatus.completed, none, none, none⟩] 0
      ⟨"s1", 0, none, SessionStatus.completed, none, none, none⟩ rfl
      [⟨"d1", some 0, none, none, none, none, SessionStatus.completed⟩] []
      ⟨"d1", some 0, none, none, none, none, SessionStatus.completed⟩ rfl).1.2.1,
    (c7_template_and_copied_fields 0 0
      [⟨"s1", 0, none, SessionStatus.completed, none, none, none⟩] 0
      ⟨"s1", 0, none, SessionStatus.completed, none, none, none⟩ rfl
      [⟨"d1", some 0, none, none, none, none, SessionStatus.completed⟩] []
      ⟨"d1", some 0, none, none, none, none, SessionStatus.completed⟩ rfl).2.1⟩

/-- C8 counterexample: the derivation applied to a malformed 6-date week
returns an ordinary 6-entry result instead of signalling any InvalidArgument
condition: there is no validation and no error path in the code. -/
theorem c8_no_invalid_argument_counterexample :
    (deriveWeek [0, 1, 2, 3, 4, 5] [] 0).length = 6 ∧ (6 : Nat) ≠ 7 := by
  decide

/-- C8 amended: deriveWeek is a total function that signals no error
condition at all: for every input it returns exactly one day entry per input
date (a malformed week of length other than 7 yields a same-length ordinary
result rather than an InvalidArgument failure); no error kind originates in
this component. -/
theorem c8_total_no_error_length_preserved (week : List Int)
    (sessions : List TrainingSession) (now : Int) :
    (deriveWeek week sessions now).length = week.length := by
  simp [deriveWeek, List.enum_length]

/-- C9: loadWeeklySchedule always returns exactly 7 day entries, the i-th
derived from the i-th date of the Monday-to-Sunday window; an entry's session
identifier is that of the first session record (in input order) whose
scheduled date equals the entry's date, and it is set if and only if such a
matching record exists. -/
theorem c9_seven_entries_first_match_session_id (ref : Int)
    (sessions : List TrainingSession) (now : Int) :
    (loadWeeklySchedule ref sessions now).length = 7 ∧
    (∀ i : Fin 7,
      (loadWeeklySchedule ref sessions now).getD (i : Nat) default =
        deriveDay ((getWeekDates ref).getD (i : Nat) 0) (i : Nat) sessions now) ∧
    (∀ i : Fin 7,
      ((loadWeeklySchedule ref sessions now).getD (i : Nat) default).sessionId =
        (sessions.find? (fun s =>
          s.scheduled_date == (getWeekDates ref).getD (i : Nat) 0)).map (fun s => s.id) ∧
      ((((loadWeeklySchedule ref sessions now).getD (i : Nat) default).sessionId).isSome
          = true ↔
        ∃ s ∈ sessions, s.scheduled_date = (getWeekDates ref).getD (i : Nat) 0)) := by
  have hlen : (getWeekDates ref).length = 7 := by
    rw [getWeekDates_eq]
    rfl
  have hderive : ∀ i : Fin 7,
      (loadWeeklySchedule ref sessions now).getD (i : Nat) default =
        deriveDay ((getWeekDates ref).getD (i : Nat) 0) (i : Nat) sessions now := by
    intro i
    exact deriveWeek_getD (getWeekDates ref) sessions now i (by rw [hlen]; exact i.isLt)
  refine ⟨by rw [loadWeeklySchedule, deriveWeek_length, hlen], hderive, fun i => ?_⟩
  rw [hderive i, deriveDay_sessionId]
  refine ⟨rfl, ?_⟩
  simp [Option.isSome_map, List.find?_isSome]

/-- C10: in the coaching dashboard derivation the completed and missed flags
are never both true, and completed is true exactly when the matched session's
stored status is completed. -/
theorem c10_dashboard_completed_missed_flags (date : Int) (idx : Nat)
    (sessions : List DashboardSession) (workoutTemplates : List WorkoutTemplate)
    (now : Int) :
    ((deriveDashDay date idx sessions workoutTemplates now).completed &&
      (deriveDashDay date idx sessions workoutTemplates now).missed) = false ∧
    ((deriveDashDay date idx sessions workoutTemplates now).completed = true ↔
      ∃ s, sessions.find? (fun x => x.scheduled_date == some date) = some s ∧
        s.status = SessionStatus.completed) := by
  rcases hfind : sessions.find? (fun x => x.scheduled_date == some date) with _ | s
  · simp [deriveDashDay, hfind]
  · cases hs : s.status <;> simp [deriveDashDay, hfind, hs]

end Art
